import Mathlib

/-!
Shallow embedding of `lact-daemon/src/server/gpu_controller/intel.rs`
(the Intel GPU controller of the LACT daemon).

Modelling conventions:
* `u64` values are `Nat` with wrap-around arithmetic made explicit via
  `% 2 ^ 64` (`wadd64`, `wsub64`, `wmul64`); release-profile Rust semantics
  (unchecked overflow wraps two's-complement).
* `f64`/`f32` arithmetic is modelled exactly over `ℚ`; the saturating
  `as u8` / `as u64` casts are modelled by clamping + floor, with the
  division-by-zero cases (`inf`/`NaN`) handled explicitly.
* `Instant` timestamps are `Nat` milliseconds; `Duration::as_millis` is then
  truncating subtraction (the monotonic clock guarantees `now ≥ last`).
* The filesystem seen by the controller is an explicit environment `Env`:
  an association list of file path ↦ contents, directory path ↦ entry names,
  plus the decoded results of the two memory-region ioctls. `read_file`
  parses the trimmed contents; parse failure or a missing file is `none`,
  exactly as in the source.
* Fallible writes return `Except String Unit` together with the trace of
  `fs::write` calls actually issued (path, contents).
-/

namespace LactIntel

/-- Rust `char::is_ascii_whitespace` (space, tab, newline, form feed, CR). -/
def isAsciiWs (c : Char) : Bool :=
  c = ' ' || c = '\t' || c = '\n' || c = '\x0c' || c = '\r'

/-- Model of `str::trim` on the character list (ASCII whitespace). -/
def trimL (cs : List Char) : List Char :=
  ((cs.dropWhile isAsciiWs).reverse.dropWhile isAsciiWs).reverse

/-- Model of `str::trim`. -/
def trimS (s : String) : String :=
  String.mk (trimL s.data)

/-- Model of `str::strip_prefix` on character lists. -/
def dropPreL : List Char → List Char → Option (List Char)
  | [], s => some s
  | _ :: _, [] => none
  | p :: ps, c :: cs => if p = c then dropPreL ps cs else none

/-- Model of `str::strip_suffix` on character lists. -/
def dropSufL (suf s : List Char) : Option (List Char) :=
  (dropPreL suf.reverse s.reverse).map List.reverse

/-- Model of `str::strip_prefix`. -/
def dropPre (p s : String) : Option String :=
  (dropPreL p.data s.data).map String.mk

/-- Model of `str::strip_suffix`. -/
def dropSuf (p s : String) : Option String :=
  (dropSufL p.data s.data).map String.mk

/-- Accumulator pass of `split_ascii_whitespace`. -/
def splitWsAux : List Char → List Char → List (List Char)
  | [], acc => if acc.isEmpty then [] else [acc.reverse]
  | c :: cs, acc =>
    if isAsciiWs c then
      if acc.isEmpty then splitWsAux cs [] else acc.reverse :: splitWsAux cs []
    else splitWsAux cs (c :: acc)

/-- Model of `str::split_ascii_whitespace` (no empty items). -/
def splitWs (s : String) : List String :=
  (splitWsAux s.data []).map String.mk

/-- Decimal digit accumulation. -/
def digitsValAux : List Char → Nat → Option Nat
  | [], acc => some acc
  | c :: cs, acc =>
    if c.isDigit then digitsValAux cs (acc * 10 + (c.toNat - 48)) else none

/-- Value of a non-empty all-digit character list. -/
def digitsVal : List Char → Option Nat
  | [] => none
  | cs => digitsValAux cs 0

/-- Model of `u64::from_str` (optional `+` sign, digits, overflow is `Err`). -/
def parseU64 (s : String) : Option Nat :=
  let cs := match s.data with
    | '+' :: rest => rest
    | cs => cs
  match digitsVal cs with
  | some v => if v < 2 ^ 64 then some v else none
  | none => none

/-- Model of `i32::from_str` (sign, digits, range check). -/
def parseI32 (s : String) : Option Int :=
  match s.data with
  | '-' :: rest =>
    (digitsVal rest).bind fun v => if v ≤ 2 ^ 31 then some (-(v : Int)) else none
  | '+' :: rest =>
    (digitsVal rest).bind fun v => if v < 2 ^ 31 then some (v : Int) else none
  | cs =>
    (digitsVal cs).bind fun v => if v < 2 ^ 31 then some (v : Int) else none

/-- Unsigned decimal with optional fractional part (`12`, `12.5`, `12.`, `.5`). -/
def parseURat (cs : List Char) : Option ℚ :=
  let ip := cs.takeWhile (fun c => c != '.')
  match cs.dropWhile (fun c => c != '.') with
  | [] => (digitsVal ip).map (fun v => (v : ℚ))
  | _ :: fp =>
    if fp.contains '.' then none
    else
      match ip, fp with
      | [], [] => none
      | [], _ => (digitsVal fp).map (fun f => (f : ℚ) / (10 : ℚ) ^ fp.length)
      | _, [] => (digitsVal ip).map (fun v => (v : ℚ))
      | _, _ =>
        match digitsVal ip, digitsVal fp with
        | some v, some f => some ((v : ℚ) + (f : ℚ) / (10 : ℚ) ^ fp.length)
        | _, _ => none

/-- Model of `f64::from_str` / `f32::from_str` over exact rationals
(plain decimal forms; exponent/`inf`/`NaN` forms are not used by sysfs). -/
def parseRat (s : String) : Option ℚ :=
  match s.data with
  | '-' :: rest => (parseURat rest).map (fun q => -q)
  | '+' :: rest => parseURat rest
  | cs => parseURat cs

/-- Identity parse of `String::from_str` (never fails; input is pre-trimmed). -/
def parseStr (s : String) : Option String :=
  some s

/-- Wrapping `u64` addition. -/
def wadd64 (a b : Nat) : Nat :=
  (a + b) % 2 ^ 64

/-- Wrapping `u64` subtraction (release-profile overflow semantics). -/
def wsub64 (a b : Nat) : Nat :=
  (a % 2 ^ 64 + (2 ^ 64 - b % 2 ^ 64)) % 2 ^ 64

/-- Wrapping `u64` multiplication. -/
def wmul64 (a b : Nat) : Nat :=
  a * b % 2 ^ 64

/-- Rust saturating `f64 as u64` cast (negative ↦ 0, too large ↦ `u64::MAX`). -/
def ratToU64 (q : ℚ) : Nat :=
  if q < 0 then 0 else min (2 ^ 64 - 1) q.floor.toNat

/-- The `(gpu_busy_delta as f64 / time_delta.as_millis() as f64) * 100.0`
computation followed by the saturating `as u8` cast: division by zero gives
`inf` (cast 255) or `NaN` for `0/0` (cast 0); otherwise the exact quotient
is truncated and clamped to `u8`. -/
def percentAsU8 (delta tdMs : Nat) : Nat :=
  if tdMs = 0 then (if delta = 0 then 0 else 255)
  else min 255 (delta * 100 / tdMs)

/-- The `driver_type` discriminant of the controller. -/
inductive DriverType
  | I915
  | Xe
deriving DecidableEq

/-- The `FrequencyType` enum. -/
inductive FrequencyType
  | Cur
  | Act
  | Boost
  | Min
  | Max
  | Rp0
  | Rpe
  | Rpn
deriving DecidableEq

/-- The `DeviceType` variants used by `device_type`. -/
inductive DeviceType
  | Dedicated
  | Integrated
deriving DecidableEq

/-- Decoded `drm_i915_memory_region_info` fields consumed by the controller. -/
structure I915Region where
  memoryClass : Nat
  probedSize : Nat
  unallocatedSize : Nat
  probedCpuVisibleSize : Nat
  unallocatedCpuVisibleSize : Nat
deriving DecidableEq

/-- Decoded `drm_xe_mem_region` fields consumed by the controller. -/
structure XeRegion where
  memClass : Nat
  totalSize : Nat
  used : Nat
  cpuVisibleSize : Nat
deriving DecidableEq

/-- Kernel ABI constant `I915_MEMORY_CLASS_DEVICE` (device-local VRAM). -/
def I915_MEMORY_CLASS_DEVICE : Nat := 1

/-- Kernel ABI constant `DRM_XE_MEM_REGION_CLASS_VRAM`. -/
def XE_MEM_REGION_CLASS_VRAM : Nat := 1

/-- The controller's environment: its immutable identity fields plus the
kernel-exposed inputs every query reads. `files` maps an absolute file path
to its contents, `dirs` maps a directory path to its entry names,
`i915Query`/`xeQuery` are the decoded memory-region ioctl results
(`none` collapses both the ioctl error and the unsupported cases, which the
source treats identically via `if let Ok(Some(query))`). `now` is the
millisecond reading `Instant::now()` returns during the call. -/
structure Env where
  driverType : DriverType
  sysfsPath : String
  cardPath : String
  tileGts : List String
  hwmonPath : Option String
  files : List (String × String)
  dirs : List (String × List String)
  writeFailPaths : List String
  rpsBoostLines : Option (List String)
  i915Query : Option (List I915Region)
  xeQuery : Option (List XeRegion)
  initialPowerCap : Option ℚ
  now : Nat
deriving DecidableEq

/-- Whether a path is absolute (`Path::join` with an absolute path replaces). -/
def isAbsolute (p : String) : Bool :=
  match p.data with
  | '/' :: _ => true
  | _ => false

/-- Model of `self.common.sysfs_path.join(path)`. -/
def joinPath (base p : String) : String :=
  if isAbsolute p then p else base ++ "/" ++ p

/-- Model of `IntelGpuController::read_file`: join onto the sysfs path,
require the file to exist, trim and parse; any failure is `none`. -/
def readFileWith (parse : String → Option α) (env : Env) (path : String) : Option α :=
  match List.lookup (joinPath env.sysfsPath path) env.files with
  | some contents => parse (trimS contents)
  | none => none

/-- The hwmon file-name filter of `read_hwmon_files` / `write_hwmon_file`:
`strip_prefix`, then `strip_suffix`, and the remaining middle segment must
contain no `'_'`. -/
def hwmonNameMatches (pre suf name : String) : Bool :=
  match (dropPreL pre.data name.data).bind (dropSufL suf.data) with
  | some mid => !(mid.contains '_')
  | none => false

/-- The byte-wise `Ord` of Rust `PathBuf`/`OsStr`/`String` comparison,
modelled as the lexicographic order on the character list (identical to the
byte order for the ASCII names involved). -/
def nameLe (a b : String) : Prop :=
  a.data ≤ b.data

instance : DecidableRel nameLe := fun a b =>
  inferInstanceAs (Decidable (a.data ≤ b.data))

instance : IsTotal String nameLe :=
  ⟨fun a b => le_total a.data b.data⟩

instance : IsTrans String nameLe :=
  ⟨fun _ _ _ h1 h2 => le_trans h1 h2⟩

/-- The name selection of `read_hwmon_files`: filter the directory entries by
`hwmonNameMatches` and sort (`sort_unstable`; the source sorts the full
paths, which share the directory prefix, so name order and path order
coincide; for identical keys stable and unstable sorts agree). -/
def hwmonSelect (pre suf : String) (names : List String) : List String :=
  List.insertionSort nameLe (names.filter (hwmonNameMatches pre suf))

/-- Model of `read_hwmon_files`: list the hwmon directory, select and sort
matching names, then read each file through `read_file`, keeping only the
entries that exist and parse. -/
def readHwmonFiles (parse : String → Option α) (env : Env) (pre suf : String) :
    List (α × String) :=
  match env.hwmonPath with
  | none => []
  | some hp =>
    match List.lookup hp env.dirs with
    | none => []
    | some names =>
      ((hwmonSelect pre suf names).map (fun n => hp ++ "/" ++ n)).filterMap
        (fun p => (readFileWith parse env p).map (fun v => (v, p)))

/-- Model of `read_hwmon_file`: first element of `read_hwmon_files`. -/
def readHwmonFile (parse : String → Option α) (env : Env) (pre suf : String) :
    Option α :=
  (readHwmonFiles parse env pre suf).head?.map Prod.fst

/-- Model of `write_file`: the target must already exist (never creates
files); the trace records the `fs::write` call issued, `writeFailPaths`
makes that call fail with an I/O error. -/
def writeFile (env : Env) (path contents : String) :
    Except String Unit × List (String × String) :=
  let fp := joinPath env.sysfsPath path
  match List.lookup fp env.files with
  | some _ =>
    if fp ∈ env.writeFailPaths then
      (Except.error ("Could not write to " ++ fp), [(fp, contents)])
    else
      (Except.ok (), [(fp, contents)])
  | none => (Except.error ("File " ++ fp ++ " does not exist"), [])

/-- Model of `anyhow::Context::context`: prepend the context message. -/
def ctxErr (msg : String) : Except String α → Except String α
  | .error e => .error (msg ++ ": " ++ e)
  | .ok a => .ok a

/-- Model of `freq_path`: i915 resolves under the card (parent) directory,
xe under the first tile GT; `Boost` has no xe file. -/
def freqPath (env : Env) (freq : FrequencyType) : Option String :=
  match env.driverType with
  | .I915 =>
    let mid : String :=
      match freq with
      | .Cur => "cur"
      | .Act => "act"
      | .Boost => "boost"
      | .Min => "min"
      | .Max => "max"
      | .Rp0 => "RP0"
      | .Rpe => "RP1"
      | .Rpn => "RPn"
    some (env.cardPath ++ "/gt_" ++ mid ++ "_freq_mhz")
  | .Xe =>
    match env.tileGts.head? with
    | some gt =>
      match freq with
      | .Boost => none
      | _ =>
        let pre : String :=
          match freq with
          | .Cur => "cur"
          | .Act => "act"
          | .Boost => "boost"
          | .Min => "min"
          | .Max => "max"
          | .Rp0 => "rp0"
          | .Rpe => "rpe"
          | .Rpn => "rpn"
        some (gt ++ "/freq0/" ++ pre ++ "_freq")
    | none => none

/-- Model of `read_freq`. -/
def readFreq (env : Env) (freq : FrequencyType) : Option Nat :=
  (freqPath env freq).bind (readFileWith parseU64 env)

/-- The absolute path `write_file` would write for a given frequency knob. -/
def freqTarget (env : Env) (freq : FrequencyType) : Option String :=
  (freqPath env freq).map (joinPath env.sysfsPath)

/-- Model of `write_freq`. -/
def writeFreq (env : Env) (freq : FrequencyType) (value : Int) :
    Except String Unit × List (String × String) :=
  match freqPath env freq with
  | none => (Except.error "Frequency info not found", [])
  | some p =>
    let r := writeFile env p (toString value)
    (ctxErr "Could not write frequency" r.1, r.2)

/-- Model of `write_hwmon_file`: same selection rule as the read side (the
source's extra `starts_with`/`ends_with` guard is implied by the strips),
writes to the first sorted match. -/
def writeHwmonFile (env : Env) (pre suf contents : String) :
    Except String Unit × List (String × String) :=
  match env.hwmonPath with
  | none => (Except.error "No hwmon available", [])
  | some hp =>
    match List.lookup hp env.dirs with
    | none => (Except.error "could not read hwmon directory", [])
    | some names =>
      match ((hwmonSelect pre suf names).map (fun n => hp ++ "/" ++ n)).head? with
      | some p => writeFile env p contents
      | none => (Except.error "File not found", [])

/-- The absolute path `write_hwmon_file` would write for a given selector. -/
def hwmonWriteTarget (env : Env) (pre suf : String) : Option String :=
  match env.hwmonPath with
  | none => none
  | some hp =>
    match List.lookup hp env.dirs with
    | none => none
    | some names =>
      (((hwmonSelect pre suf names).map (fun n => hp ++ "/" ++ n)).head?).map
        (joinPath env.sysfsPath)

/-- The `clocks_configuration` part of `GpuConfig` used by `apply_config`. -/
structure ClocksConfiguration where
  maxCoreClock : Option Int
  minCoreClock : Option Int
deriving DecidableEq

/-- The `GpuConfig` fields used by `apply_config`. -/
structure GpuConfig where
  clocksConfiguration : ClocksConfiguration
  powerCap : Option ℚ
deriving DecidableEq

/-- Model of `apply_config`: max clock, then min clock, then power cap,
each only when set, with `?` fail-fast propagation; the returned trace is
the concatenation of the `fs::write` calls issued, in order. -/
def applyConfig (env : Env) (config : GpuConfig) :
    Except String Unit × List (String × String) :=
  let s1 : Except String Unit × List (String × String) :=
    match config.clocksConfiguration.maxCoreClock with
    | some maxClock =>
      let r := writeFreq env .Max maxClock
      (ctxErr "Could not set max clock" r.1, r.2)
    | none => (Except.ok (), [])
  match s1.1 with
  | .error e => (.error e, s1.2)
  | .ok _ =>
    let s2 : Except String Unit × List (String × String) :=
      match config.clocksConfiguration.minCoreClock with
      | some minClock =>
        let r := writeFreq env .Min minClock
        (ctxErr "Could not set min clock" r.1, r.2)
      | none => (Except.ok (), [])
    match s2.1 with
    | .error e => (.error e, s1.2 ++ s2.2)
    | .ok _ =>
      let s3 : Except String Unit × List (String × String) :=
        match config.powerCap with
        | some cap =>
          let r := writeHwmonFile env "power" "_max"
            (toString (ratToU64 (cap * 1000000)))
          (ctxErr "Could not set power cap" r.1, r.2)
        | none => (Except.ok (), [])
      (s3.1, s1.2 ++ s2.2 ++ s3.2)

/-- The line loop of `get_busy_percent`: scan for a `GPU busy?` line, parse
the trailing `<n>ms` token (`?` failures return `none` without touching the
stored sample), store `(now, counter)`, and if a previous sample existed
return the percentage; otherwise keep scanning. Returns the new stored
sample and the result. -/
def getBusyLoop : List String → Option (Nat × Nat) → Nat →
    Option (Nat × Nat) × Option Nat
  | [], last, _ => (last, none)
  | line :: rest, last, now =>
    match dropPre "GPU busy?" line with
    | none => getBusyLoop rest last now
    | some contents =>
      match (splitWs contents).getLast? with
      | none => (last, none)
      | some w =>
        match dropSuf "ms" w with
        | none => (last, none)
        | some raw =>
          match parseU64 raw with
          | none => (last, none)
          | some gpuBusy =>
            match last with
            | some (lastT, lastBusy) =>
              (some (now, gpuBusy),
                some (percentAsU8 (wsub64 gpuBusy lastBusy) (now - lastT)))
            | none => getBusyLoop rest (some (now, gpuBusy)) now

/-- Model of `get_busy_percent`: open `<debugfs>/gt0/rps_boost` (failure is
`none` with the stored sample untouched) and run the line loop. -/
def getBusyPercent (env : Env) (last : Option (Nat × Nat)) :
    Option (Nat × Nat) × Option Nat :=
  match env.rpsBoostLines with
  | none => (last, none)
  | some lines => getBusyLoop lines last env.now

/-- The first non-zero `energy*_input` reading used by `get_power_usage`. -/
def energyFirstNonzero (env : Env) : Option Nat :=
  ((readHwmonFiles parseU64 env "energy" "_input").map Prod.fst).find?
    (fun v => v != 0)

/-- Model of `get_power_usage`: prefer `power*_input`; otherwise derive power
from the first non-zero energy counter via the stored `(timestamp, energy)`
sample (`checked_div` returns `none` when zero milliseconds elapsed), and
finally divide by 10^6 (microwatts → watts). Returns the new stored sample
and the result. -/
def getPowerUsage (env : Env) (last : Option (Nat × Nat)) :
    Option (Nat × Nat) × Option ℚ :=
  match readHwmonFile parseU64 env "power" "_input" with
  | some v => (last, some ((v : ℚ) / 1000000))
  | none =>
    match energyFirstNonzero env with
    | none => (last, none)
    | some energy =>
      let st := some (env.now, energy)
      match last with
      | none => (st, none)
      | some (lastT, lastEnergy) =>
        let tdMs := env.now - lastT
        let delta := wsub64 energy lastEnergy
        if tdMs = 0 then (st, none)
        else (st, some ((wmul64 (delta / tdMs) 1000 : ℚ) / 1000000))

/-- The `amdgpu_sysfs` `Temperature` value built by `get_temperatures`. -/
structure Temperature where
  current : Option ℚ
  crit : Option ℚ
  critHyst : Option ℚ
deriving DecidableEq

/-- Model of `get_temperatures`: each `temp*_input` reading paired with its
`*_label` contents when readable (else the key `"gpu"`), value in °C.
The source collects into a `HashMap`; the association list keeps the same
pairs. -/
def getTemperatures (env : Env) : List (String × Temperature) :=
  (readHwmonFiles parseRat env "temp" "_input").map fun vp =>
    let key : String :=
      match dropSuf "_input" vp.2 with
      | some base =>
        match readFileWith parseStr env (base ++ "_label") with
        | some label => label
        | none => "gpu"
      | none => "gpu"
    (key, { current := some (vp.1 / 1000), crit := none, critHyst := none })

/-- Model of `get_throttle_info`: collect the names of the non-zero throttle
reason files (the `BTreeMap` iterates its keys sorted); a failed directory
read is `none`; on xe with no tile the map is empty. -/
def getThrottleInfo (env : Env) : Option (List String) :=
  match env.driverType with
  | .I915 =>
    let gtPath := env.cardPath ++ "/gt/gt0"
    match List.lookup gtPath env.dirs with
    | none => none
    | some names =>
      some (List.insertionSort nameLe
        (names.filterMap fun name =>
          match dropPre "throttle_reason_" name with
          | some reason =>
            if reason = "status" then none
            else
              match readFileWith parseI32 env (gtPath ++ "/" ++ name) with
              | some v => if v != 0 then some reason else none
              | none => none
          | none => none))
  | .Xe =>
    match env.tileGts.head? with
    | some tile =>
      let path := env.sysfsPath ++ "/" ++ tile ++ "/freq0/throttle"
      match List.lookup path env.dirs with
      | none => none
      | some names =>
        some (List.insertionSort nameLe
          (names.filterMap fun name =>
            match dropPre "reason_" name with
            | some reason =>
              match readFileWith parseI32 env (path ++ "/" ++ name) with
              | some v => if v != 0 then some reason else none
              | none => none
            | none => none))
    | none => some []

/-- The `(total, used, cpu_accessible_total, cpu_accessible_used)`
accumulation over i915 memory regions: only `I915_MEMORY_CLASS_DEVICE`
regions are summed; the cpu-visible pair is summed only when the region
reports a positive cpu-visible size. Accumulator order is
`(total, unallocated, cpuTotal, cpuUnallocated)`. -/
def i915Fold : List I915Region → Nat × Nat × Nat × Nat → Nat × Nat × Nat × Nat
  | [], acc => acc
  | r :: rs, (total, unalloc, cpuTotal, cpuUnalloc) =>
    if r.memoryClass = I915_MEMORY_CLASS_DEVICE then
      let total' := wadd64 total r.probedSize
      let unalloc' := wadd64 unalloc r.unallocatedSize
      if 0 < r.probedCpuVisibleSize then
        i915Fold rs (total', unalloc', wadd64 cpuTotal r.probedCpuVisibleSize,
          wadd64 cpuUnalloc r.unallocatedCpuVisibleSize)
      else
        i915Fold rs (total', unalloc', cpuTotal, cpuUnalloc)
    else
      i915Fold rs (total, unalloc, cpuTotal, cpuUnalloc)

/-- The `(total, used, cpu_accessible_total)` accumulation over xe memory
regions: only `DRM_XE_MEM_REGION_CLASS_VRAM` regions are summed. -/
def xeFold : List XeRegion → Nat × Nat × Nat → Nat × Nat × Nat
  | [], acc => acc
  | r :: rs, (total, used, cpuTotal) =>
    if r.memClass = XE_MEM_REGION_CLASS_VRAM then
      let cpuTotal' :=
        if 0 < r.cpuVisibleSize then wadd64 cpuTotal r.cpuVisibleSize else cpuTotal
      xeFold rs (wadd64 total r.totalSize, wadd64 used r.used, cpuTotal')
    else
      xeFold rs (total, used, cpuTotal)

/-- Sum of `probed_size` over the device-class i915 regions. -/
def i915ProbedSum (rs : List I915Region) : Nat :=
  ((rs.filter fun r => r.memoryClass == I915_MEMORY_CLASS_DEVICE).map
    (fun r => r.probedSize)).sum

/-- Sum of `unallocated_size` over the device-class i915 regions. -/
def i915UnallocSum (rs : List I915Region) : Nat :=
  ((rs.filter fun r => r.memoryClass == I915_MEMORY_CLASS_DEVICE).map
    (fun r => r.unallocatedSize)).sum

/-- Sum of `probed_cpu_visible_size` over the device-class i915 regions with
a positive cpu-visible size. -/
def i915CpuTotalSum (rs : List I915Region) : Nat :=
  ((rs.filter fun r =>
      r.memoryClass == I915_MEMORY_CLASS_DEVICE && 0 < r.probedCpuVisibleSize).map
    (fun r => r.probedCpuVisibleSize)).sum

/-- Sum of `unallocated_cpu_visible_size` over the device-class i915 regions
with a positive cpu-visible size. -/
def i915CpuUnallocSum (rs : List I915Region) : Nat :=
  ((rs.filter fun r =>
      r.memoryClass == I915_MEMORY_CLASS_DEVICE && 0 < r.probedCpuVisibleSize).map
    (fun r => r.unallocatedCpuVisibleSize)).sum

/-- Sum of `total_size` over the VRAM-class xe regions. -/
def xeTotalSum (rs : List XeRegion) : Nat :=
  ((rs.filter fun r => r.memClass == XE_MEM_REGION_CLASS_VRAM).map
    (fun r => r.totalSize)).sum

/-- Sum of `used` over the VRAM-class xe regions. -/
def xeUsedSum (rs : List XeRegion) : Nat :=
  ((rs.filter fun r => r.memClass == XE_MEM_REGION_CLASS_VRAM).map
    (fun r => r.used)).sum

/-- Sum of `cpu_visible_size` over the VRAM-class xe regions with a positive
cpu-visible size. -/
def xeCpuTotalSum (rs : List XeRegion) : Nat :=
  ((rs.filter fun r =>
      r.memClass == XE_MEM_REGION_CLASS_VRAM && 0 < r.cpuVisibleSize).map
    (fun r => r.cpuVisibleSize)).sum

/-- The `DrmMemoryInfo` value of `lact_schema`. -/
structure DrmMemoryInfo where
  cpuAccessibleUsed : Nat
  cpuAccessibleTotal : Nat
  resizeableBar : Option Bool
deriving DecidableEq

/-- The `IntelVramInfo` struct. -/
structure IntelVramInfo where
  total : Nat
  used : Nat
  memInfo : DrmMemoryInfo
deriving DecidableEq

/-- The four accumulators `(total, used, cpu_accessible_total,
cpu_accessible_used)` of `get_vram_info` after the driver-specific branch:
a failed or unsupported query leaves all four at zero; i915 derives
`used = total - unallocated` only when `total > 0` (same for the
cpu-visible pair); xe sums `used` directly and never sets
`cpu_accessible_used`. -/
def vramRaw (env : Env) : Nat × Nat × Nat × Nat :=
  match env.driverType with
  | .I915 =>
    match env.i915Query with
    | some regions =>
      let acc := i915Fold regions (0, 0, 0, 0)
      (acc.1,
        if 0 < acc.1 then wsub64 acc.1 acc.2.1 else 0,
        acc.2.2.1,
        if 0 < acc.2.2.1 then wsub64 acc.2.2.1 acc.2.2.2 else 0)
    | none => (0, 0, 0, 0)
  | .Xe =>
    match env.xeQuery with
    | some regions =>
      let acc := xeFold regions (0, 0, 0)
      (acc.1, acc.2.1, acc.2.2, 0)
    | none => (0, 0, 0, 0)

/-- Model of `get_vram_info`. -/
def getVramInfo (env : Env) : IntelVramInfo :=
  let v := vramRaw env
  { total := v.1
    used := v.2.1
    memInfo :=
      { cpuAccessibleUsed := v.2.2.2
        cpuAccessibleTotal := v.2.2.1
        resizeableBar := some (decide (v.2.2.1 = v.1)) } }

/-- Model of `device_type`: `Dedicated` iff the probed VRAM total is
positive. -/
def deviceType (env : Env) : DeviceType :=
  if 0 < (getVramInfo env).total then .Dedicated else .Integrated

/-- The `ClockspeedStats` fields produced by `get_stats`. -/
structure ClockspeedStats where
  gpuClockspeed : Option Nat
  currentGfxclk : Option Nat
  vramClockspeed : Option Nat
deriving DecidableEq

/-- The `PowerStats` fields produced by `get_stats`. -/
structure PowerStats where
  average : Option ℚ
  current : Option ℚ
  capCurrent : Option ℚ
  capMin : Option ℚ
  capMax : Option ℚ
  capDefault : Option ℚ
deriving DecidableEq

/-- The `VoltageStats` fields produced by `get_stats`. -/
structure VoltageStats where
  gpu : Option Nat
  northbridge : Option Nat
deriving DecidableEq

/-- The `FanStats` field set by `get_stats` (the rest stays default). -/
structure FanStats where
  speedCurrent : Option Nat
deriving DecidableEq

/-- The `VramStats` fields produced by `get_stats`. -/
structure VramStats where
  total : Option Nat
  used : Option Nat
deriving DecidableEq

/-- The `DeviceStats` snapshot fields set by the Intel `get_stats`. -/
structure DeviceStats where
  clockspeed : ClockspeedStats
  vram : VramStats
  busyPercent : Option Nat
  power : PowerStats
  temps : List (String × Temperature)
  voltage : VoltageStats
  throttleInfo : Option (List String)
  fan : FanStats
deriving DecidableEq

/-- The two rate-tracker cells (`last_gpu_busy`, `last_energy_value`). -/
structure TrackerState where
  lastGpuBusy : Option (Nat × Nat)
  lastEnergy : Option (Nat × Nat)
deriving DecidableEq

/-- Model of `get_stats`: total by construction — every datum is read
through an `Option`-returning accessor, `0` VRAM totals become absent
fields, a `0.0` power-cap reading is replaced by the `100.0` placeholder.
Returns the updated tracker cells and the snapshot. -/
def getStats (env : Env) (st : TrackerState) : TrackerState × DeviceStats :=
  let currentGfxclk := readFreq env .Cur
  let gpuClockspeed :=
    ((readFreq env .Act).filter (fun v => v != 0)).orElse fun _ => currentGfxclk
  let capCurrent :=
    (((readHwmonFile parseRat env "power" "_max").map (fun v => v / 1000000)).map
      fun cap => if cap = 0 then 100 else cap)
  let pw := getPowerUsage env st.lastEnergy
  let busy := getBusyPercent env st.lastGpuBusy
  let vramInfo := getVramInfo env
  ({ lastGpuBusy := busy.1, lastEnergy := pw.1 },
    { clockspeed :=
        { gpuClockspeed, currentGfxclk, vramClockspeed := none }
      vram :=
        { total := if vramInfo.total = 0 then none else some vramInfo.total
          used := if vramInfo.used = 0 then none else some vramInfo.used }
      busyPercent := busy.2
      power :=
        { average := none
          current := pw.2
          capCurrent
          capMin := some 0
          capMax :=
            ((((readHwmonFile parseRat env "power" "_rated_max").filter
                (fun v => v != 0)).map (fun cap => cap / 1000000)).orElse
              fun _ => capCurrent.map fun c => c * 2)
          capDefault := env.initialPowerCap }
      temps := getTemperatures env
      voltage :=
        { gpu := readHwmonFile parseU64 env "in" "_input", northbridge := none }
      throttleInfo := getThrottleInfo env
      fan := { speedCurrent := readHwmonFile parseU64 env "fan" "_input" } })

/-- Tracker state with no stored samples (freshly constructed controller). -/
def st0 : TrackerState :=
  { lastGpuBusy := none, lastEnergy := none }

/-- Environment with every input absent or empty (i915). -/
def envAbsent : Env :=
  { driverType := .I915
    sysfsPath := "/sys/card0/device"
    cardPath := "/sys/card0"
    tileGts := []
    hwmonPath := none
    files := []
    dirs := []
    writeFailPaths := []
    rpsBoostLines := none
    i915Query := none
    xeQuery := none
    initialPowerCap := none
    now := 0 }

/-- Environment for the decreasing-energy-counter evaluation: one hwmon
energy file reading 50 µJ, one millisecond after the stored sample. -/
def envC1 : Env :=
  { driverType := .I915
    sysfsPath := "/sys/card0/device"
    cardPath := "/sys/card0"
    tileGts := []
    hwmonPath := some "/hw"
    files := [("/hw/energy1_input", "50")]
    dirs := [("/hw", ["energy1_input"])]
    writeFailPaths := []
    rpsBoostLines := none
    i915Query := none
    xeQuery := none
    initialPowerCap := none
    now := 1 }

/-- The i915 memory-region list of the spec's worked example: one
device-class region (probed 1000, unallocated 200) and one excluded
system-class region. -/
def regsC4 : List I915Region :=
  [{ memoryClass := 1, probedSize := 1000, unallocatedSize := 200,
     probedCpuVisibleSize := 0, unallocatedCpuVisibleSize := 0 },
   { memoryClass := 0, probedSize := 777, unallocatedSize := 5,
     probedCpuVisibleSize := 0, unallocatedCpuVisibleSize := 0 }]

/-- Environment whose i915 query returns `regsC4`. -/
def envC4 : Env :=
  { envAbsent with i915Query := some regsC4 }

/-- Environment for the power-usage witness: no `power*_input`, one
`energy1_input` reading 150 µJ, at 2 ms. -/
def envC6 : Env :=
  { envC1 with files := [("/hw/energy1_input", "150")], now := 2 }

/-- Xe environment whose query reports a VRAM region with zero total size
but non-zero used size. -/
def envC7 : Env :=
  { envAbsent with
    driverType := .Xe
    i915Query := none
    xeQuery := some [{ memClass := 1, totalSize := 0, used := 5,
                       cpuVisibleSize := 0 }] }

/-- Environment whose hwmon `power1_max` file reads `0`. -/
def envC8 : Env :=
  { envAbsent with
    hwmonPath := some "/hw"
    files := [("/hw/power1_max", "0")]
    dirs := [("/hw", ["power1_max"])] }

/-- Environment for the `apply_config` witness: the i915 max-frequency file
exists and is writable. -/
def envC3 : Env :=
  { envAbsent with files := [("/sys/card0/gt_max_freq_mhz", "300")] }

/-- Configuration with only `max_core_clock` set. -/
def cfgC3 : GpuConfig :=
  { clocksConfiguration := { maxCoreClock := some 500, minCoreClock := none }
    powerCap := none }


/-! ## Helper lemmas -/

/-- The map `wsub64` is plain subtraction when no wrap occurs. -/
theorem wsub64_of_le {a b : Nat} (hba : b ≤ a) (ha : a < 2 ^ 64) :
    wsub64 a b = a - b := by
  unfold wsub64
  omega

/-- Characterization of the strip-prefix primitive. -/
theorem dropPreL_iff (p : List Char) :
    ∀ s r : List Char, dropPreL p s = some r ↔ s = p ++ r := by
  induction p with
  | nil =>
    intro s r
    simp [dropPreL]
  | cons a ps ih =>
    intro s r
    cases s with
    | nil => simp [dropPreL]
    | cons c cs =>
      by_cases h : a = c
      · subst h
        simp [dropPreL, ih]
      · simp only [dropPreL, if_neg h, List.cons_append, List.cons.injEq]
        constructor
        · intro h'
          exact absurd h' (by simp)
        · rintro ⟨h1, _⟩
          exact absurd h1.symm h

/-- Characterization of the strip-suffix primitive. -/
theorem dropSufL_iff (p s r : List Char) :
    dropSufL p s = some r ↔ s = r ++ p := by
  unfold dropSufL
  simp only [Option.map_eq_some']
  constructor
  · rintro ⟨r', hr', rfl⟩
    rw [dropPreL_iff] at hr'
    have h := congrArg List.reverse hr'
    simpa [List.reverse_append] using h
  · rintro rfl
    refine ⟨r.reverse, ?_, by simp⟩
    rw [dropPreL_iff]
    simp [List.reverse_append]

/-! ## Claim theorems -/

/-- C9: `device_type` returns `Dedicated` exactly when the probed VRAM total
is positive, and `Integrated` exactly when it is zero. -/
theorem c9_device_type (env : Env) :
    (deviceType env = DeviceType.Dedicated ↔ 0 < (getVramInfo env).total) ∧
    (deviceType env = DeviceType.Integrated ↔ (getVramInfo env).total = 0) := by
  unfold deviceType
  by_cases h : 0 < (getVramInfo env).total
  · constructor
    · simp [h]
    · simp [h]
      omega
  · constructor
    · simp [h]
    · simp [h]
      omega

/-- C9 witness: the environment of the worked memory-region example is
reported as a dedicated GPU. -/
theorem c9_device_type_witness : deviceType envC4 = DeviceType.Dedicated := by
  exact (c9_device_type envC4).1.mpr (by decide)

/-- C10: `get_vram_info` always reports `resizeable_bar` as present, equal to
the test `cpu_accessible_total == total`; in particular an all-zero probe
(failed query / integrated GPU) reports it as present and `true`. -/
theorem c10_resizeable_bar (env : Env) :
    (getVramInfo env).memInfo.resizeableBar =
      some (decide ((getVramInfo env).memInfo.cpuAccessibleTotal =
        (getVramInfo env).total)) ∧
    ((getVramInfo env).total = 0 →
      (getVramInfo env).memInfo.cpuAccessibleTotal = 0 →
      (getVramInfo env).memInfo.resizeableBar = some true) := by
  refine ⟨rfl, ?_⟩
  intro h1 h2
  have hb : (getVramInfo env).memInfo.resizeableBar =
      some (decide ((getVramInfo env).memInfo.cpuAccessibleTotal =
        (getVramInfo env).total)) := rfl
  rw [hb, h1, h2]
  simp

/-- C10 witness: a failed probe reports `resizeable_bar = some true` together
with zero totals. -/
theorem c10_resizeable_bar_witness :
    (getVramInfo envAbsent).memInfo.resizeableBar = some true :=
  (c10_resizeable_bar envAbsent).2 (by decide) (by decide)

/-- C1: evaluation of the rate trackers at a decreasing counter. With the
stored sample `(t=0, counter=100)` and a current reading of `50` at `t=1ms`,
`get_busy_percent` wraps the `u64` subtraction and returns `Some(255)` (the
saturated cast of the huge wrapped delta) instead of `None`; the energy path
of `get_power_usage` likewise returns a wrapped `Some` value. (In a
debug-profile build the same subtraction panics.) -/
theorem c1_decreasing_counter_reported :
    (getBusyLoop ["GPU busy? 50ms"] (some (0, 100)) 1).2 = some 255 ∧
    (getBusyLoop ["GPU busy? 50ms"] (some (0, 100)) 1).2 ≠ none ∧
    (getPowerUsage envC1 (some (0, 100))).2 ≠ none := by
  refine ⟨?_, ?_, ?_⟩ <;> decide

/-- C8 counterexample: with a hwmon `power1_max` file that reads `0`, the
snapshot reports `cap_current = Some(100.0)` — the placeholder — rather than
preserving the legitimate zero reading. -/
theorem c8_zero_cap_replaced :
    (getStats envC8 st0).2.power.capCurrent = some 100 ∧
    (getStats envC8 st0).2.power.capCurrent ≠ some 0 := by
  have h : readHwmonFile parseRat envC8 "power" "_max" = some ((0 : Nat) : ℚ) := by
    decide
  have h0 : ((0 : Nat) : ℚ) = 0 := by norm_num
  rw [h0] at h
  constructor <;> norm_num [getStats, h]

/-- C8 (amended): `cap_current` is an explicit optional — absent file yields
`none` — but a reading of exactly `0` is replaced by the placeholder `100.0`;
any non-zero reading is reported as read (scaled to watts). -/
theorem c8_cap_current_amended (env : Env) (st : TrackerState) :
    (readHwmonFile parseRat env "power" "_max" = none →
      (getStats env st).2.power.capCurrent = none) ∧
    (readHwmonFile parseRat env "power" "_max" = some 0 →
      (getStats env st).2.power.capCurrent = some 100) ∧
    (∀ v : ℚ, readHwmonFile parseRat env "power" "_max" = some v → v ≠ 0 →
      (getStats env st).2.power.capCurrent = some (v / 1000000)) := by
  refine ⟨?_, ?_, ?_⟩
  · intro h
    simp [getStats, h]
  · intro h
    simp [getStats, h]
  · intro v h hv
    have hne : v / 1000000 ≠ 0 := by
      simp [div_eq_zero_iff, hv]
    simp [getStats, h, hne]

/-- C8 witness: instantiating the amended statement at the concrete
zero-reading environment yields the placeholder. -/
theorem c8_cap_current_amended_witness :
    (getStats envC8 st0).2.power.capCurrent = some 100 :=
  (c8_cap_current_amended envC8 st0).2.1 (by decide)

/-- C7 counterexample: an xe memory-region query reporting a VRAM region with
`total_size = 0` but `used = 5` produces a snapshot whose VRAM total is
absent while `used` is reported as `Some(5)`. -/
theorem c7_used_reported_with_zero_total :
    (getStats envC7 st0).2.vram.total = none ∧
    (getStats envC7 st0).2.vram.used = some 5 := by
  constructor <;> decide

/-- C2: `get_stats` is total by construction (it returns a `DeviceStats` for
every environment and tracker state), and missing inputs surface as absent
optional fields: no debugfs busy file means no `busy_percent`, no hwmon
directory means absent power/voltage/fan/temperature data, a failed memory
probe means absent VRAM fields. -/
theorem c2_get_stats_never_fails (env : Env) (st : TrackerState) :
    (env.rpsBoostLines = none → (getStats env st).2.busyPercent = none) ∧
    (env.hwmonPath = none →
      (getStats env st).2.power.capCurrent = none ∧
      (getStats env st).2.power.current = none ∧
      (getStats env st).2.power.capMax = none ∧
      (getStats env st).2.voltage.gpu = none ∧
      (getStats env st).2.fan.speedCurrent = none ∧
      (getStats env st).2.temps = []) ∧
    (env.driverType = DriverType.I915 → env.i915Query = none →
      (getStats env st).2.vram = { total := none, used := none }) := by
  refine ⟨?_, ?_, ?_⟩
  · intro h
    simp [getStats, getBusyPercent, h]
  · intro h
    simp [getStats, readHwmonFile, readHwmonFiles, getPowerUsage,
      energyFirstNonzero, getTemperatures, h]
  · intro h1 h2
    simp [getStats, getVramInfo, vramRaw, h1, h2]

/-- C2 witness: the all-absent environment produces a snapshot with every
optional field absent. -/
theorem c2_get_stats_never_fails_witness :
    (getStats envAbsent st0).2.busyPercent = none ∧
    (getStats envAbsent st0).2.power.capCurrent = none ∧
    (getStats envAbsent st0).2.power.current = none ∧
    (getStats envAbsent st0).2.temps = [] ∧
    (getStats envAbsent st0).2.vram = { total := none, used := none } := by
  have h := c2_get_stats_never_fails envAbsent st0
  exact ⟨h.1 rfl, (h.2.1 rfl).1, (h.2.1 rfl).2.1, (h.2.1 rfl).2.2.2.2.2,
    h.2.2 rfl rfl⟩


/-- Characterization of the hwmon name filter: a name matches exactly when it
decomposes as prefix ++ middle ++ suffix with an underscore-free middle. -/
theorem hwmonNameMatches_iff (pre suf name : String) :
    hwmonNameMatches pre suf name = true ↔
      ∃ mid : List Char, name.data = pre.data ++ mid ++ suf.data ∧
        mid.contains '_' = false := by
  unfold hwmonNameMatches
  rcases hpre : dropPreL pre.data name.data with _ | rest
  · simp only [Option.none_bind]
    constructor
    · intro h
      exact absurd h (by simp)
    · rintro ⟨mid, hm, _⟩
      have : dropPreL pre.data name.data = some (mid ++ suf.data) :=
        (dropPreL_iff pre.data name.data (mid ++ suf.data)).mpr
          (by rw [hm, List.append_assoc])
      rw [hpre] at this
      exact absurd this (by simp)
  · have hname : name.data = pre.data ++ rest :=
      (dropPreL_iff pre.data name.data rest).mp hpre
    simp only [Option.some_bind]
    rcases hsuf : dropSufL suf.data rest with _ | mid
    · constructor
      · intro h
        exact absurd h (by simp)
      · rintro ⟨mid, hm, _⟩
        have hrest : rest = mid ++ suf.data := by
          rw [hname, List.append_assoc] at hm
          exact List.append_cancel_left hm
        have : dropSufL suf.data rest = some mid :=
          (dropSufL_iff suf.data rest mid).mpr hrest
        rw [hsuf] at this
        exact absurd this (by simp)
    · have hrest : rest = mid ++ suf.data :=
        (dropSufL_iff suf.data rest mid).mp hsuf
      constructor
      · intro h
        refine ⟨mid, by rw [hname, hrest, List.append_assoc], ?_⟩
        simpa using h
      · rintro ⟨mid2, hm, hc⟩
        have hrest2 : rest = mid2 ++ suf.data := by
          rw [hname, List.append_assoc] at hm
          exact List.append_cancel_left hm
        have : mid = mid2 := by
          have := hrest.symm.trans hrest2
          exact List.append_cancel_right this
        subst this
        simpa using hc

/-- C5: the hwmon file selection returns exactly the directory entries that
start with the prefix, end with the suffix, and whose middle segment has no
underscore separator, sorted by filename; the spec's worked example is
reproduced. -/
theorem c5_hwmon_selection :
    (∀ (pre suf : String) (names : List String) (name : String),
      name ∈ hwmonSelect pre suf names ↔
        name ∈ names ∧ ∃ mid : List Char,
          name.data = pre.data ++ mid ++ suf.data ∧ mid.contains '_' = false) ∧
    (∀ (pre suf : String) (names : List String),
      List.Sorted nameLe (hwmonSelect pre suf names)) ∧
    hwmonSelect "temp" "_input" ["temp1_input", "temp2_input", "temp1_crit"] =
      ["temp1_input", "temp2_input"] := by
  refine ⟨?_, ?_, by decide⟩
  · intro pre suf names name
    unfold hwmonSelect
    rw [List.mem_insertionSort, List.mem_filter, hwmonNameMatches_iff]
  · intro pre suf names
    exact List.sorted_insertionSort nameLe _

/-- C5 witness: the worked example instantiated through the selection
theorem — only the two bare `_input` entries survive, in sorted order. -/
theorem c5_hwmon_selection_witness :
    hwmonSelect "temp" "_input" ["temp1_input", "temp2_input", "temp1_crit"] =
      ["temp1_input", "temp2_input"] ∧
    List.Sorted nameLe
      (hwmonSelect "temp" "_input"
        ["temp1_input", "temp2_input", "temp1_crit"]) :=
  ⟨c5_hwmon_selection.2.2,
    c5_hwmon_selection.2.1 "temp" "_input"
      ["temp1_input", "temp2_input", "temp1_crit"]⟩

/-- The i915 region fold accumulates, modulo `2 ^ 64`, the four filtered
sums of `get_vram_info`'s i915 branch. -/
theorem i915Fold_spec (rs : List I915Region) :
    ∀ t u ct cu : Nat, t < 2 ^ 64 → u < 2 ^ 64 → ct < 2 ^ 64 → cu < 2 ^ 64 →
      i915Fold rs (t, u, ct, cu) =
        ((t + i915ProbedSum rs) % 2 ^ 64, (u + i915UnallocSum rs) % 2 ^ 64,
          (ct + i915CpuTotalSum rs) % 2 ^ 64,
          (cu + i915CpuUnallocSum rs) % 2 ^ 64) := by
  induction rs with
  | nil =>
    intro t u ct cu ht hu hct hcu
    simp only [i915Fold, i915ProbedSum, i915UnallocSum, i915CpuTotalSum,
      i915CpuUnallocSum, List.filter_nil, List.map_nil, List.sum_nil]
    refine Prod.ext ?_ (Prod.ext ?_ (Prod.ext ?_ ?_)) <;> simp <;> omega
  | cons r rs ih =>
    intro t u ct cu ht hu hct hcu
    by_cases hc : r.memoryClass = I915_MEMORY_CLASS_DEVICE
    · by_cases hcpu : 0 < r.probedCpuVisibleSize
      · rw [show i915Fold (r :: rs) (t, u, ct, cu) =
            i915Fold rs (wadd64 t r.probedSize, wadd64 u r.unallocatedSize,
              wadd64 ct r.probedCpuVisibleSize,
              wadd64 cu r.unallocatedCpuVisibleSize) from by
          simp [i915Fold, hc, hcpu]]
        rw [ih _ _ _ _ (by unfold wadd64; omega) (by unfold wadd64; omega)
          (by unfold wadd64; omega) (by unfold wadd64; omega)]
        simp only [i915ProbedSum, i915UnallocSum, i915CpuTotalSum,
          i915CpuUnallocSum, List.filter_cons, List.map_cons, List.sum_cons,
          hc, hcpu, decide_True, beq_self_eq_true, Bool.and_self, if_true]
        refine Prod.ext ?_ (Prod.ext ?_ (Prod.ext ?_ ?_)) <;>
          simp [wadd64, Nat.mod_add_mod] <;> ring_nf
      · rw [show i915Fold (r :: rs) (t, u, ct, cu) =
            i915Fold rs (wadd64 t r.probedSize, wadd64 u r.unallocatedSize,
              ct, cu) from by
          simp [i915Fold, hc, hcpu]]
        rw [ih _ _ _ _ (by unfold wadd64; omega) (by unfold wadd64; omega)
          hct hcu]
        simp only [i915ProbedSum, i915UnallocSum, i915CpuTotalSum,
          i915CpuUnallocSum, List.filter_cons, List.map_cons, List.sum_cons,
          hc, hcpu, beq_self_eq_true, if_true]
        refine Prod.ext ?_ (Prod.ext ?_ (Prod.ext ?_ ?_)) <;>
          simp [wadd64, Nat.mod_add_mod, hcpu] <;> ring_nf
    · rw [show i915Fold (r :: rs) (t, u, ct, cu) = i915Fold rs (t, u, ct, cu)
          from by simp [i915Fold, hc]]
      rw [ih _ _ _ _ ht hu hct hcu]
      simp only [i915ProbedSum, i915UnallocSum, i915CpuTotalSum,
        i915CpuUnallocSum, List.filter_cons, hc]
      simp [hc]

/-- The xe region fold accumulates, modulo `2 ^ 64`, the three filtered sums
of `get_vram_info`'s xe branch. -/
theorem xeFold_spec (rs : List XeRegion) :
    ∀ t u ct : Nat, t < 2 ^ 64 → u < 2 ^ 64 → ct < 2 ^ 64 →
      xeFold rs (t, u, ct) =
        ((t + xeTotalSum rs) % 2 ^ 64, (u + xeUsedSum rs) % 2 ^ 64,
          (ct + xeCpuTotalSum rs) % 2 ^ 64) := by
  induction rs with
  | nil =>
    intro t u ct ht hu hct
    simp only [xeFold, xeTotalSum, xeUsedSum, xeCpuTotalSum, List.filter_nil,
      List.map_nil, List.sum_nil]
    refine Prod.ext ?_ (Prod.ext ?_ ?_) <;> simp <;> omega
  | cons r rs ih =>
    intro t u ct ht hu hct
    by_cases hc : r.memClass = XE_MEM_REGION_CLASS_VRAM
    · by_cases hcpu : 0 < r.cpuVisibleSize
      · rw [show xeFold (r :: rs) (t, u, ct) =
            xeFold rs (wadd64 t r.totalSize, wadd64 u r.used,
              wadd64 ct r.cpuVisibleSize) from by simp [xeFold, hc, hcpu]]
        rw [ih _ _ _ (by unfold wadd64; omega) (by unfold wadd64; omega)
          (by unfold wadd64; omega)]
        simp only [xeTotalSum, xeUsedSum, xeCpuTotalSum, List.filter_cons,
          List.map_cons, List.sum_cons, hc, hcpu, beq_self_eq_true, if_true]
        refine Prod.ext ?_ (Prod.ext ?_ ?_) <;>
          simp [wadd64, Nat.mod_add_mod, hcpu] <;> ring_nf
      · rw [show xeFold (r :: rs) (t, u, ct) =
            xeFold rs (wadd64 t r.totalSize, wadd64 u r.used, ct) from by
          simp [xeFold, hc, hcpu]]
        rw [ih _ _ _ (by unfold wadd64; omega) (by unfold wadd64; omega) hct]
        simp only [xeTotalSum, xeUsedSum, xeCpuTotalSum, List.filter_cons,
          List.map_cons, List.sum_cons, hc, hcpu, beq_self_eq_true, if_true]
        refine Prod.ext ?_ (Prod.ext ?_ ?_) <;>
          simp [wadd64, Nat.mod_add_mod, hcpu] <;> ring_nf
    · rw [show xeFold (r :: rs) (t, u, ct) = xeFold rs (t, u, ct) from by
        simp [xeFold, hc]]
      rw [ih _ _ _ ht hu hct]
      simp only [xeTotalSum, xeUsedSum, xeCpuTotalSum, List.filter_cons, hc]
      simp [hc]

/-- C4: `get_vram_info` sums only memory regions of the device-local class
(on both driver generations); on i915, `used = total − unallocated` when the
total is positive and `0` otherwise; a failed or unsupported probe yields the
all-zero result. -/
theorem c4_vram_region_summation :
    (∀ (env : Env) (regions : List I915Region),
      env.driverType = DriverType.I915 → env.i915Query = some regions →
      i915ProbedSum regions < 2 ^ 64 →
      i915UnallocSum regions ≤ i915ProbedSum regions →
      (getVramInfo env).total = i915ProbedSum regions ∧
      (getVramInfo env).used =
        (if 0 < i915ProbedSum regions
          then i915ProbedSum regions - i915UnallocSum regions else 0)) ∧
    (∀ env : Env, env.driverType = DriverType.I915 → env.i915Query = none →
      getVramInfo env = ⟨0, 0, ⟨0, 0, some true⟩⟩) ∧
    (∀ (env : Env) (regions : List XeRegion),
      env.driverType = DriverType.Xe → env.xeQuery = some regions →
      xeTotalSum regions < 2 ^ 64 → xeUsedSum regions < 2 ^ 64 →
      (getVramInfo env).total = xeTotalSum regions ∧
      (getVramInfo env).used = xeUsedSum regions) ∧
    (∀ env : Env, env.driverType = DriverType.Xe → env.xeQuery = none →
      getVramInfo env = ⟨0, 0, ⟨0, 0, some true⟩⟩) := by
  have hM : (0 : Nat) < 2 ^ 64 := by positivity
  refine ⟨?_, ?_, ?_, ?_⟩
  · intro env regions hdrv hq hsum hle
    have hfold := i915Fold_spec regions 0 0 0 0 hM hM hM hM
    have hUlt : i915UnallocSum regions < 2 ^ 64 := lt_of_le_of_lt hle hsum
    constructor
    · show (vramRaw env).1 = _
      unfold vramRaw
      rw [hdrv, hq]
      simp only [hfold]
      simp [Nat.mod_eq_of_lt hsum]
      omega
    · show (vramRaw env).2.1 = _
      unfold vramRaw
      rw [hdrv, hq]
      simp only [hfold]
      simp only [Nat.zero_add, Nat.mod_eq_of_lt hsum, Nat.mod_eq_of_lt hUlt]
      by_cases hpos : 0 < i915ProbedSum regions
      · rw [if_pos hpos, if_pos hpos, wsub64_of_le hle hsum]
      · rw [if_neg hpos, if_neg hpos]
  · intro env hdrv hq
    simp [getVramInfo, vramRaw, hdrv, hq]
  · intro env regions hdrv hq hts hus
    have hfold := xeFold_spec regions 0 0 0 hM hM hM
    constructor
    · show (vramRaw env).1 = _
      unfold vramRaw
      rw [hdrv, hq]
      simp only [hfold]
      simp [Nat.mod_eq_of_lt hts]
      omega
    · show (vramRaw env).2.1 = _
      unfold vramRaw
      rw [hdrv, hq]
      simp only [hfold]
      simp [Nat.mod_eq_of_lt hus]
      omega
  · intro env hdrv hq
    simp [getVramInfo, vramRaw, hdrv, hq]

/-- C4 witness: the spec's worked example — a device-class region with
probed 1000 and unallocated 200 plus an excluded system-class region —
yields total 1000 and used 800. -/
theorem c4_vram_region_summation_witness :
    (getVramInfo envC4).total = 1000 ∧ (getVramInfo envC4).used = 800 := by
  have h := c4_vram_region_summation.1 envC4 regsC4 rfl rfl (by decide)
    (by decide)
  refine ⟨?_, ?_⟩
  · rw [h.1]
    decide
  · rw [h.2]
    decide


/-- C6: the rate trackers: a first read stores the `(timestamp, counter)`
sample and yields `none`; a second read whose counter increased by `d` over
`e` elapsed milliseconds stores the new sample and yields the rate `d / e`
scaled to the metric's unit — `d * 100 / e` percent for the busy counter
(truncated, clamped to `u8`), `(d / e) * 1000 / 10^6` watts for the
microjoule energy counter (integer μJ/ms division, then μW → W). -/
theorem c6_rate_tracker_first_none_then_delta :
    (∀ (line contents w raw : String) (c now : Nat),
      dropPre "GPU busy?" line = some contents →
      (splitWs contents).getLast? = some w →
      dropSuf "ms" w = some raw → parseU64 raw = some c →
      getBusyLoop [line] none now = (some (now, c), none)) ∧
    (∀ (line contents w raw : String) (c0 d e t0 : Nat),
      dropPre "GPU busy?" line = some contents →
      (splitWs contents).getLast? = some w →
      dropSuf "ms" w = some raw → parseU64 raw = some (c0 + d) →
      0 < e → c0 + d < 2 ^ 64 → d * 100 / e ≤ 255 →
      getBusyLoop [line] (some (t0, c0)) (t0 + e) =
        (some (t0 + e, c0 + d), some (d * 100 / e))) ∧
    (∀ (env : Env) (en : Nat),
      readHwmonFile parseU64 env "power" "_input" = none →
      energyFirstNonzero env = some en →
      getPowerUsage env none = (some (env.now, en), none)) ∧
    (∀ (env : Env) (e0 d t0 e : Nat),
      readHwmonFile parseU64 env "power" "_input" = none →
      energyFirstNonzero env = some (e0 + d) →
      env.now = t0 + e → 0 < e → e0 + d < 2 ^ 64 → d / e * 1000 < 2 ^ 64 →
      getPowerUsage env (some (t0, e0)) =
        (some (env.now, e0 + d),
          some (((d / e * 1000 : Nat) : ℚ) / 1000000))) := by
  refine ⟨?_, ?_, ?_, ?_⟩
  · intro line contents w raw c now h1 h2 h3 h4
    simp [getBusyLoop, h1, h2, h3, h4]
  · intro line contents w raw c0 d e t0 h1 h2 h3 h4 he hlt hle
    simp only [getBusyLoop, h1, h2, h3, h4]
    have hts : t0 + e - t0 = e := by omega
    have hsub : wsub64 (c0 + d) c0 = d := by
      rw [wsub64_of_le (by omega) hlt]
      omega
    rw [hts, hsub]
    have hp : percentAsU8 d e = d * 100 / e := by
      unfold percentAsU8
      rw [if_neg (by omega)]
      exact min_eq_right hle
    rw [hp]
  · intro env en h1 h2
    simp [getPowerUsage, h1, h2]
  · intro env e0 d t0 e h1 h2 hnow he hlt hmul
    simp only [getPowerUsage, h1, h2]
    have hts : env.now - t0 = e := by omega
    have hsub : wsub64 (e0 + d) e0 = d := by
      rw [wsub64_of_le (by omega) hlt]
      omega
    rw [hts, hsub, if_neg (by omega)]
    have hm : wmul64 (d / e) 1000 = d / e * 1000 := by
      unfold wmul64
      exact Nat.mod_eq_of_lt hmul
    rw [hm]

/-- C6 witness: concrete first and second reads of both trackers — the
second busy read (42 → 52 over 5 ms) yields 200 %, the second energy read
(100 → 150 μJ over 2 ms) yields 25000 μW = 1/40 W. -/
theorem c6_rate_tracker_witness :
    getBusyLoop ["GPU busy? 42ms"] none 5 = (some (5, 42), none) ∧
    getBusyLoop ["GPU busy? 52ms"] (some (5, 42)) 10 =
      (some (10, 52), some 200) ∧
    getPowerUsage envC6 none = (some (2, 150), none) ∧
    getPowerUsage envC6 (some (0, 100)) =
      (some (2, 150), some (((50 / 2 * 1000 : Nat) : ℚ) / 1000000)) := by
  refine ⟨?_, ?_, ?_, ?_⟩
  · exact c6_rate_tracker_first_none_then_delta.1 "GPU busy? 42ms" " 42ms"
      "42ms" "42" 42 5 (by decide) (by decide) (by decide) (by decide)
  · exact c6_rate_tracker_first_none_then_delta.2.1 "GPU busy? 52ms" " 52ms"
      "52ms" "52" 42 10 5 5 (by decide) (by decide) (by decide) (by decide)
      (by decide) (by decide) (by decide)
  · exact c6_rate_tracker_first_none_then_delta.2.2.1 envC6 150 (by decide)
      (by decide)
  · exact c6_rate_tracker_first_none_then_delta.2.2.2 envC6 100 50 0 2
      (by decide) (by decide) (by decide) (by decide) (by decide) (by decide)

/-- The VRAM-class used sum is bounded by the VRAM-class total sum whenever
each region individually satisfies `used ≤ total_size`. -/
theorem xeUsedSum_le_totalSum (rs : List XeRegion)
    (h : ∀ r ∈ rs, r.used ≤ r.totalSize) : xeUsedSum rs ≤ xeTotalSum rs := by
  induction rs with
  | nil => simp [xeUsedSum, xeTotalSum]
  | cons r rs ih =>
    have hr := h r (by simp)
    have ih2 := ih fun x hx => h x (by simp [hx])
    by_cases hc : r.memClass == XE_MEM_REGION_CLASS_VRAM
    · simp only [xeUsedSum, xeTotalSum, List.filter_cons, hc, if_true,
        List.map_cons, List.sum_cons] at ih2 ⊢
      omega
    · simp only [Bool.not_eq_true] at hc
      simp only [xeUsedSum, xeTotalSum, List.filter_cons, hc,
        Bool.false_eq_true, if_false] at ih2 ⊢
      omega

/-- C7 (amended): in every snapshot, the VRAM `used` field is non-negative
by type and is reported only when positive; provided every VRAM region
reported by the xe query satisfies `used ≤ total_size` (with sums within
`u64` range, as the kernel guarantees), `used` is absent whenever the VRAM
total is zero. Without that per-region bound the xe path can report `used`
with a zero total (see the counterexample). -/
theorem c7_vram_used_amended (env : Env) (st : TrackerState)
    (hsane : ∀ regions, env.xeQuery = some regions →
      (∀ r ∈ regions, r.used ≤ r.totalSize) ∧ xeTotalSum regions < 2 ^ 64) :
    ((getVramInfo env).total = 0 → (getStats env st).2.vram.used = none) ∧
    (∀ u : Nat, (getStats env st).2.vram.used = some u → 0 < u) := by
  have hM : (0 : Nat) < 2 ^ 64 := by positivity
  have hused : (getStats env st).2.vram.used =
      (if (getVramInfo env).used = 0 then none else some (getVramInfo env).used) :=
    rfl
  constructor
  · intro htot
    rw [hused]
    have h0 : (getVramInfo env).used = 0 := by
      have htot' : (vramRaw env).1 = 0 := htot
      show (vramRaw env).2.1 = 0
      unfold vramRaw at htot' ⊢
      cases hdrv : env.driverType with
      | I915 =>
        rw [hdrv] at htot'
        dsimp only at htot' ⊢
        cases hq : env.i915Query with
        | none => rfl
        | some regions =>
          rw [hq] at htot'
          dsimp only at htot' ⊢
          rw [if_neg (by omega)]
      | Xe =>
        rw [hdrv] at htot'
        dsimp only at htot' ⊢
        cases hq : env.xeQuery with
        | none => rfl
        | some regions =>
          rw [hq] at htot'
          dsimp only at htot' ⊢
          obtain ⟨hreg, hts⟩ := hsane regions hq
          have hfold := xeFold_spec regions 0 0 0 hM hM hM
          rw [hfold] at htot' ⊢
          simp only [Nat.zero_add] at htot' ⊢
          rw [Nat.mod_eq_of_lt hts] at htot'
          have hzero : xeUsedSum regions = 0 := by
            have := xeUsedSum_le_totalSum regions hreg
            omega
          simp [hzero]
    rw [h0]
    simp
  · intro u hu
    rw [hused] at hu
    by_cases h0 : (getVramInfo env).used = 0
    · rw [if_pos h0] at hu
      exact absurd hu (by simp)
    · rw [if_neg h0] at hu
      have : u = (getVramInfo env).used := by
        exact (Option.some.injEq _ _).mp hu.symm
      omega

/-- C7 witness: applying the amended statement to the integrated-GPU
environment (failed probe, zero total) shows `used` absent. -/
theorem c7_vram_used_amended_witness :
    (getStats envAbsent st0).2.vram.used = none := by
  have h := c7_vram_used_amended envAbsent st0
    (fun regions hr => by simp [envAbsent] at hr)
  exact h.1 (by decide)


/-- A prefix that fails against `q` also fails against `q ++ e` when it is
no longer than `q`. -/
theorem dropPreL_append_none (p : List Char) :
    ∀ q e : List Char, dropPreL p q = none → p.length ≤ q.length →
      dropPreL p (q ++ e) = none := by
  induction p with
  | nil =>
    intro q e h _
    simp [dropPreL] at h
  | cons a ps ih =>
    intro q e h hlen
    cases q with
    | nil => simp at hlen
    | cons b qs =>
      by_cases hab : a = b
      · subst hab
        simp only [dropPreL, if_pos rfl] at h ⊢
        exact ih qs e h (by simpa using hlen)
      · simp [dropPreL, hab]

/-- A context message is recovered by `strip_prefix` from its own error. -/
theorem dropPre_of_ctx (p t : String) : (dropPre p (p ++ t)).isSome = true := by
  unfold dropPre
  rw [String.data_append,
    (dropPreL_iff p.data (p.data ++ t.data) t.data).mpr rfl]
  rfl

/-- A context message whose fixed part mismatches is not recovered by
`strip_prefix`, whatever the inner error text. -/
theorem dropPre_of_ctx_ne (p q t : String)
    (hnone : dropPreL p.data q.data = none)
    (hlen : p.data.length ≤ q.data.length) :
    (dropPre p (q ++ t)).isSome = false := by
  unfold dropPre
  rw [String.data_append, dropPreL_append_none p.data q.data t.data hnone hlen]
  rfl

/-- Every fs write issued by `write_file` targets the joined path and
carries the given contents. -/
theorem writeFile_elem (env : Env) (p c : String) :
    ∀ w ∈ (writeFile env p c).2, w = (joinPath env.sysfsPath p, c) := by
  simp only [writeFile]
  rcases hl : List.lookup (joinPath env.sysfsPath p) env.files with _ | q
  · simp
  · by_cases hf : joinPath env.sysfsPath p ∈ env.writeFailPaths <;>
      simp [hf]

/-- A successful `write_file` issued exactly its one write. -/
theorem writeFile_ok (env : Env) (p c : String)
    (h : (writeFile env p c).1 = Except.ok ()) :
    (writeFile env p c).2 = [(joinPath env.sysfsPath p, c)] := by
  simp only [writeFile] at h ⊢
  rcases hl : List.lookup (joinPath env.sysfsPath p) env.files with _ | q
  · rw [hl] at h
    exact absurd h (by simp)
  · rw [hl] at h
    dsimp only at h
    simp only [hl]
    by_cases hf : joinPath env.sysfsPath p ∈ env.writeFailPaths
    · rw [if_pos hf] at h
      exact absurd h (by simp)
    · simp [hf]

/-- Every fs write issued by `write_freq` targets the knob's resolved file
and carries the formatted frequency. -/
theorem writeFreq_elem (env : Env) (f : FrequencyType) (v : Int) :
    ∀ w ∈ (writeFreq env f v).2,
      freqTarget env f = some w.1 ∧ w.2 = toString v := by
  simp only [writeFreq, freqTarget]
  rcases hp : freqPath env f with _ | p
  · simp
  · simp only [Option.map_some']
    intro w hw
    have hweq := writeFile_elem env p (toString v) w hw
    subst hweq
    simp

/-- A successful `write_freq` issued exactly its one write. -/
theorem writeFreq_ok (env : Env) (f : FrequencyType) (v : Int)
    (h : (writeFreq env f v).1 = Except.ok ()) :
    ∃ p, freqTarget env f = some p ∧
      (writeFreq env f v).2 = [(p, toString v)] := by
  simp only [writeFreq, freqTarget] at h ⊢
  rcases hp : freqPath env f with _ | p
  · rw [hp] at h
    exact absurd h (by simp)
  · rw [hp] at h
    dsimp only at h
    simp only [hp, Option.map_some']
    have hok : (writeFile env p (toString v)).1 = Except.ok () := by
      rcases hw : (writeFile env p (toString v)).1 with e | u
      · rw [hw] at h
        exact absurd h (by simp [ctxErr])
      · rfl
    exact ⟨joinPath env.sysfsPath p, rfl, writeFile_ok env p _ hok⟩

/-- Every fs write issued by `write_hwmon_file` targets the selected hwmon
file and carries the given contents. -/
theorem writeHwmon_elem (env : Env) (pre suf c : String) :
    ∀ w ∈ (writeHwmonFile env pre suf c).2,
      hwmonWriteTarget env pre suf = some w.1 ∧ w.2 = c := by
  simp only [writeHwmonFile, hwmonWriteTarget]
  rcases hh : env.hwmonPath with _ | hp
  · simp
  · rcases hd : List.lookup hp env.dirs with _ | names
    · simp [hd]
    · simp only [hd]
      rcases hsel : hwmonSelect pre suf names with _ | ⟨n, rest⟩
      · simp [hsel]
      · simp only [hsel, List.map_cons, List.head?_cons, Option.map_some']
        intro w hw
        have hweq := writeFile_elem env (hp ++ "/" ++ n) c w hw
        subst hweq
        simp

/-- Full characterization of `apply_config`: the issued-write trace
decomposes into the max-clock, min-clock and power-cap segments in that
order; an error carries the failing knob's context message and truncates
every later segment; on success each set knob was written (the max knob
exactly once, with its formatted value) and each unset knob contributed no
write. -/
theorem applyConfig_char (env : Env) (config : GpuConfig) :
    ∃ t1 t2 t3,
      (applyConfig env config).2 = t1 ++ t2 ++ t3 ∧
      (∀ w ∈ t1, ∃ v, config.clocksConfiguration.maxCoreClock = some v ∧
        freqTarget env FrequencyType.Max = some w.1 ∧ w.2 = toString v) ∧
      (∀ w ∈ t2, ∃ v, config.clocksConfiguration.minCoreClock = some v ∧
        freqTarget env FrequencyType.Min = some w.1 ∧ w.2 = toString v) ∧
      (∀ w ∈ t3, ∃ cp, config.powerCap = some cp ∧
        hwmonWriteTarget env "power" "_max" = some w.1 ∧
        w.2 = toString (ratToU64 (cp * 1000000))) ∧
      (∀ e, (applyConfig env config).1 = Except.error e →
        (∃ t, e = "Could not set max clock: " ++ t ∧ t2 = [] ∧ t3 = []) ∨
        (∃ t, e = "Could not set min clock: " ++ t ∧ t3 = []) ∨
        (∃ t, e = "Could not set power cap: " ++ t)) ∧
      ((applyConfig env config).1 = Except.ok () →
        (∀ v, config.clocksConfiguration.maxCoreClock = some v →
          ∃ p, freqTarget env FrequencyType.Max = some p ∧
            t1 = [(p, toString v)]) ∧
        (config.clocksConfiguration.maxCoreClock = none → t1 = []) ∧
        (config.clocksConfiguration.minCoreClock = none → t2 = []) ∧
        (config.powerCap = none → t3 = [])) := by
  rcases hmax : config.clocksConfiguration.maxCoreClock with _ | v1
  · rcases hmin : config.clocksConfiguration.minCoreClock with _ | v2
    · rcases hcap : config.powerCap with _ | cp
      · -- no knob set
        have hac : applyConfig env config = (Except.ok (), []) := by
          simp [applyConfig, hmax, hmin, hcap]
        refine ⟨[], [], [], by simp [hac], by simp, by simp, by simp, ?_, ?_⟩
        · intro e he
          rw [hac] at he
          have h' : Except.ok () = Except.error e := he
          exact absurd h' (by simp)
        · exact fun _ => ⟨fun v hv => Option.noConfusion hv, fun _ => rfl,
            fun _ => rfl, fun _ => rfl⟩
      · -- only power cap set
        rcases hr3 : (writeHwmonFile env "power" "_max"
            (toString (ratToU64 (cp * 1000000)))).1 with e3 | ⟨⟩
        · have hac : applyConfig env config =
              (Except.error ("Could not set power cap: " ++ e3),
               (writeHwmonFile env "power" "_max"
                 (toString (ratToU64 (cp * 1000000)))).2) := by
            simp [applyConfig, hmax, hmin, hcap, hr3, ctxErr]
          refine ⟨[], [],
            (writeHwmonFile env "power" "_max"
              (toString (ratToU64 (cp * 1000000)))).2,
            by simp [hac], by simp, by simp,
            fun w hw => ⟨cp, rfl,
              (writeHwmon_elem env "power" "_max" _ w hw).1,
              (writeHwmon_elem env "power" "_max" _ w hw).2⟩, ?_, ?_⟩
          · intro e he
            rw [hac] at he
            have h' : Except.error ("Could not set power cap: " ++ e3) =
                Except.error e := he
            injection h' with hee
            exact Or.inr (Or.inr ⟨e3, hee.symm⟩)
          · intro hok
            rw [hac] at hok
            have h' : Except.error ("Could not set power cap: " ++ e3) =
                Except.ok () := hok
            exact absurd h' (by simp)
        · have hac : applyConfig env config =
              (Except.ok (),
               (writeHwmonFile env "power" "_max"
                 (toString (ratToU64 (cp * 1000000)))).2) := by
            simp [applyConfig, hmax, hmin, hcap, hr3, ctxErr]
          refine ⟨[], [],
            (writeHwmonFile env "power" "_max"
              (toString (ratToU64 (cp * 1000000)))).2,
            by simp [hac], by simp, by simp,
            fun w hw => ⟨cp, rfl,
              (writeHwmon_elem env "power" "_max" _ w hw).1,
              (writeHwmon_elem env "power" "_max" _ w hw).2⟩, ?_, ?_⟩
          · intro e he
            rw [hac] at he
            have h' : Except.ok () = Except.error e := he
            exact absurd h' (by simp)
          · exact fun _ => ⟨fun v hv => Option.noConfusion hv, fun _ => rfl,
              fun _ => rfl, fun hc => Option.noConfusion hc⟩
    · -- min clock set (max unset)
      rcases hr2 : (writeFreq env FrequencyType.Min v2).1 with e2 | ⟨⟩
      · have hac : applyConfig env config =
            (Except.error ("Could not set min clock: " ++ e2),
             (writeFreq env FrequencyType.Min v2).2) := by
          simp [applyConfig, hmax, hmin, hr2, ctxErr]
        refine ⟨[], (writeFreq env FrequencyType.Min v2).2, [],
          by simp [hac], by simp,
          fun w hw => ⟨v2, rfl,
            (writeFreq_elem env FrequencyType.Min v2 w hw).1,
            (writeFreq_elem env FrequencyType.Min v2 w hw).2⟩,
          by simp, ?_, ?_⟩
        · intro e he
          rw [hac] at he
          have h' : Except.error ("Could not set min clock: " ++ e2) =
              Except.error e := he
          injection h' with hee
          exact Or.inr (Or.inl ⟨e2, hee.symm, rfl⟩)
        · intro hok
          rw [hac] at hok
          have h' : Except.error ("Could not set min clock: " ++ e2) =
              Except.ok () := hok
          exact absurd h' (by simp)
      · rcases hcap : config.powerCap with _ | cp
        · have hac : applyConfig env config =
              (Except.ok (), (writeFreq env FrequencyType.Min v2).2) := by
            simp [applyConfig, hmax, hmin, hcap, hr2, ctxErr]
          refine ⟨[], (writeFreq env FrequencyType.Min v2).2, [],
            by simp [hac], by simp,
            fun w hw => ⟨v2, rfl,
              (writeFreq_elem env FrequencyType.Min v2 w hw).1,
              (writeFreq_elem env FrequencyType.Min v2 w hw).2⟩,
            by simp, ?_, ?_⟩
          · intro e he
            rw [hac] at he
            have h' : Except.ok () = Except.error e := he
            exact absurd h' (by simp)
          · exact fun _ => ⟨fun v hv => Option.noConfusion hv, fun _ => rfl,
              fun hm => Option.noConfusion hm, fun _ => rfl⟩
        · rcases hr3 : (writeHwmonFile env "power" "_max"
              (toString (ratToU64 (cp * 1000000)))).1 with e3 | ⟨⟩
          · have hac : applyConfig env config =
                (Except.error ("Could not set power cap: " ++ e3),
                 (writeFreq env FrequencyType.Min v2).2 ++
                   (writeHwmonFile env "power" "_max"
                     (toString (ratToU64 (cp * 1000000)))).2) := by
              simp [applyConfig, hmax, hmin, hcap, hr2, hr3, ctxErr]
            refine ⟨[], (writeFreq env FrequencyType.Min v2).2,
              (writeHwmonFile env "power" "_max"
                (toString (ratToU64 (cp * 1000000)))).2,
              by simp [hac], by simp,
              fun w hw => ⟨v2, rfl,
                (writeFreq_elem env FrequencyType.Min v2 w hw).1,
                (writeFreq_elem env FrequencyType.Min v2 w hw).2⟩,
              fun w hw => ⟨cp, rfl,
                (writeHwmon_elem env "power" "_max" _ w hw).1,
                (writeHwmon_elem env "power" "_max" _ w hw).2⟩, ?_, ?_⟩
            · intro e he
              rw [hac] at he
              have h' : Except.error ("Could not set power cap: " ++ e3) =
                  Except.error e := he
              injection h' with hee
              exact Or.inr (Or.inr ⟨e3, hee.symm⟩)
            · intro hok
              rw [hac] at hok
              have h' : Except.error ("Could not set power cap: " ++ e3) =
                  Except.ok () := hok
              exact absurd h' (by simp)
          · have hac : applyConfig env config =
                (Except.ok (),
                 (writeFreq env FrequencyType.Min v2).2 ++
                   (writeHwmonFile env "power" "_max"
                     (toString (ratToU64 (cp * 1000000)))).2) := by
              simp [applyConfig, hmax, hmin, hcap, hr2, hr3, ctxErr]
            refine ⟨[], (writeFreq env FrequencyType.Min v2).2,
              (writeHwmonFile env "power" "_max"
                (toString (ratToU64 (cp * 1000000)))).2,
              by simp [hac], by simp,
              fun w hw => ⟨v2, rfl,
                (writeFreq_elem env FrequencyType.Min v2 w hw).1,
                (writeFreq_elem env FrequencyType.Min v2 w hw).2⟩,
              fun w hw => ⟨cp, rfl,
                (writeHwmon_elem env "power" "_max" _ w hw).1,
                (writeHwmon_elem env "power" "_max" _ w hw).2⟩, ?_, ?_⟩
            · intro e he
              rw [hac] at he
              have h' : Except.ok () = Except.error e := he
              exact absurd h' (by simp)
            · exact fun _ => ⟨fun v hv => Option.noConfusion hv, fun _ => rfl,
                fun hm => Option.noConfusion hm,
                fun hc => Option.noConfusion hc⟩
  · -- max clock set
    rcases hr1 : (writeFreq env FrequencyType.Max v1).1 with e1 | ⟨⟩
    · have hac : applyConfig env config =
          (Except.error ("Could not set max clock: " ++ e1),
           (writeFreq env FrequencyType.Max v1).2) := by
        simp [applyConfig, hmax, hr1, ctxErr]
      refine ⟨(writeFreq env FrequencyType.Max v1).2, [], [],
        by simp [hac],
        fun w hw => ⟨v1, rfl,
          (writeFreq_elem env FrequencyType.Max v1 w hw).1,
          (writeFreq_elem env FrequencyType.Max v1 w hw).2⟩,
        by simp, by simp, ?_, ?_⟩
      · intro e he
        rw [hac] at he
        have h' : Except.error ("Could not set max clock: " ++ e1) =
            Except.error e := he
        injection h' with hee
        exact Or.inl ⟨e1, hee.symm, rfl, rfl⟩
      · intro hok
        rw [hac] at hok
        have h' : Except.error ("Could not set max clock: " ++ e1) =
            Except.ok () := hok
        exact absurd h' (by simp)
    · -- max write succeeded
      have hmaxok : ∀ v : Int, some v1 = some v →
          ∃ p, freqTarget env FrequencyType.Max = some p ∧
            (writeFreq env FrequencyType.Max v1).2 = [(p, toString v)] := by
        intro v hv
        injection hv with hv
        subst hv
        exact writeFreq_ok env FrequencyType.Max v1 hr1
      rcases hmin : config.clocksConfiguration.minCoreClock with _ | v2
      · rcases hcap : config.powerCap with _ | cp
        · have hac : applyConfig env config =
              (Except.ok (), (writeFreq env FrequencyType.Max v1).2) := by
            simp [applyConfig, hmax, hmin, hcap, hr1, ctxErr]
          refine ⟨(writeFreq env FrequencyType.Max v1).2, [], [],
            by simp [hac],
            fun w hw => ⟨v1, rfl,
              (writeFreq_elem env FrequencyType.Max v1 w hw).1,
              (writeFreq_elem env FrequencyType.Max v1 w hw).2⟩,
            by simp, by simp, ?_, ?_⟩
          · intro e he
            rw [hac] at he
            have h' : Except.ok () = Except.error e := he
            exact absurd h' (by simp)
          · exact fun _ => ⟨hmaxok, fun hm => Option.noConfusion hm,
              fun _ => rfl, fun _ => rfl⟩
        · rcases hr3 : (writeHwmonFile env "power" "_max"
              (toString (ratToU64 (cp * 1000000)))).1 with e3 | ⟨⟩
          · have hac : applyConfig env config =
                (Except.error ("Could not set power cap: " ++ e3),
                 (writeFreq env FrequencyType.Max v1).2 ++
                   (writeHwmonFile env "power" "_max"
                     (toString (ratToU64 (cp * 1000000)))).2) := by
              simp [applyConfig, hmax, hmin, hcap, hr1, hr3, ctxErr]
            refine ⟨(writeFreq env FrequencyType.Max v1).2, [],
              (writeHwmonFile env "power" "_max"
                (toString (ratToU64 (cp * 1000000)))).2,
              by simp [hac],
              fun w hw => ⟨v1, rfl,
                (writeFreq_elem env FrequencyType.Max v1 w hw).1,
                (writeFreq_elem env FrequencyType.Max v1 w hw).2⟩,
              by simp,
              fun w hw => ⟨cp, rfl,
                (writeHwmon_elem env "power" "_max" _ w hw).1,
                (writeHwmon_elem env "power" "_max" _ w hw).2⟩, ?_, ?_⟩
            · intro e he
              rw [hac] at he
              have h' : Except.error ("Could not set power cap: " ++ e3) =
                  Except.error e := he
              injection h' with hee
              exact Or.inr (Or.inr ⟨e3, hee.symm⟩)
            · intro hok
              rw [hac] at hok
              have h' : Except.error ("Could not set power cap: " ++ e3) =
                  Except.ok () := hok
              exact absurd h' (by simp)
          · have hac : applyConfig env config =
                (Except.ok (),
                 (writeFreq env FrequencyType.Max v1).2 ++
                   (writeHwmonFile env "power" "_max"
                     (toString (ratToU64 (cp * 1000000)))).2) := by
              simp [applyConfig, hmax, hmin, hcap, hr1, hr3, ctxErr]
            refine ⟨(writeFreq env FrequencyType.Max v1).2, [],
              (writeHwmonFile env "power" "_max"
                (toString (ratToU64 (cp * 1000000)))).2,
              by simp [hac],
              fun w hw => ⟨v1, rfl,
                (writeFreq_elem env FrequencyType.Max v1 w hw).1,
                (writeFreq_elem env FrequencyType.Max v1 w hw).2⟩,
              by simp,
              fun w hw => ⟨cp, rfl,
                (writeHwmon_elem env "power" "_max" _ w hw).1,
                (writeHwmon_elem env "power" "_max" _ w hw).2⟩, ?_, ?_⟩
            · intro e he
              rw [hac] at he
              have h' : Except.ok () = Except.error e := he
              exact absurd h' (by simp)
            · exact fun _ => ⟨hmaxok, fun hm => Option.noConfusion hm,
                fun _ => rfl, fun hc => Option.noConfusion hc⟩
      · rcases hr2 : (writeFreq env FrequencyType.Min v2).1 with e2 | ⟨⟩
        · have hac : applyConfig env config =
              (Except.error ("Could not set min clock: " ++ e2),
               (writeFreq env FrequencyType.Max v1).2 ++
                 (writeFreq env FrequencyType.Min v2).2) := by
            simp [applyConfig, hmax, hmin, hr1, hr2, ctxErr]
          refine ⟨(writeFreq env FrequencyType.Max v1).2,
            (writeFreq env FrequencyType.Min v2).2, [],
            by simp [hac],
            fun w hw => ⟨v1, rfl,
              (writeFreq_elem env FrequencyType.Max v1 w hw).1,
              (writeFreq_elem env FrequencyType.Max v1 w hw).2⟩,
            fun w hw => ⟨v2, rfl,
              (writeFreq_elem env FrequencyType.Min v2 w hw).1,
              (writeFreq_elem env FrequencyType.Min v2 w hw).2⟩,
            by simp, ?_, ?_⟩
          · intro e he
            rw [hac] at he
            have h' : Except.error ("Could not set min clock: " ++ e2) =
                Except.error e := he
            injection h' with hee
            exact Or.inr (Or.inl ⟨e2, hee.symm, rfl⟩)
          · intro hok
            rw [hac] at hok
            have h' : Except.error ("Could not set min clock: " ++ e2) =
                Except.ok () := hok
            exact absurd h' (by simp)
        · rcases hcap : config.powerCap with _ | cp
          · have hac : applyConfig env config =
                (Except.ok (),
                 (writeFreq env FrequencyType.Max v1).2 ++
                   (writeFreq env FrequencyType.Min v2).2) := by
              simp [applyConfig, hmax, hmin, hcap, hr1, hr2, ctxErr]
            refine ⟨(writeFreq env FrequencyType.Max v1).2,
              (writeFreq env FrequencyType.Min v2).2, [],
              by simp [hac],
              fun w hw => ⟨v1, rfl,
                (writeFreq_elem env FrequencyType.Max v1 w hw).1,
                (writeFreq_elem env FrequencyType.Max v1 w hw).2⟩,
              fun w hw => ⟨v2, rfl,
                (writeFreq_elem env FrequencyType.Min v2 w hw).1,
                (writeFreq_elem env FrequencyType.Min v2 w hw).2⟩,
              by simp, ?_, ?_⟩
            · intro e he
              rw [hac] at he
              have h' : Except.ok () = Except.error e := he
              exact absurd h' (by simp)
            · exact fun _ => ⟨hmaxok, fun hm => Option.noConfusion hm,
                fun hm => Option.noConfusion hm, fun _ => rfl⟩
          · rcases hr3 : (writeHwmonFile env "power" "_max"
                (toString (ratToU64 (cp * 1000000)))).1 with e3 | ⟨⟩
            · have hac : applyConfig env config =
                  (Except.error ("Could not set power cap: " ++ e3),
                   (writeFreq env FrequencyType.Max v1).2 ++
                     ((writeFreq env FrequencyType.Min v2).2 ++
                       (writeHwmonFile env "power" "_max"
                         (toString (ratToU64 (cp * 1000000)))).2)) := by
                simp [applyConfig, hmax, hmin, hcap, hr1, hr2, hr3, ctxErr]
              refine ⟨(writeFreq env FrequencyType.Max v1).2,
                (writeFreq env FrequencyType.Min v2).2,
                (writeHwmonFile env "power" "_max"
                  (toString (ratToU64 (cp * 1000000)))).2,
                by simp [hac],
                fun w hw => ⟨v1, rfl,
                  (writeFreq_elem env FrequencyType.Max v1 w hw).1,
                  (writeFreq_elem env FrequencyType.Max v1 w hw).2⟩,
                fun w hw => ⟨v2, rfl,
                  (writeFreq_elem env FrequencyType.Min v2 w hw).1,
                  (writeFreq_elem env FrequencyType.Min v2 w hw).2⟩,
                fun w hw => ⟨cp, rfl,
                  (writeHwmon_elem env "power" "_max" _ w hw).1,
                  (writeHwmon_elem env "power" "_max" _ w hw).2⟩, ?_, ?_⟩
              · intro e he
                rw [hac] at he
                have h' : Except.error ("Could not set power cap: " ++ e3) =
                    Except.error e := he
                injection h' with hee
                exact Or.inr (Or.inr ⟨e3, hee.symm⟩)
              · intro hok
                rw [hac] at hok
                have h' : Except.error ("Could not set power cap: " ++ e3) =
                    Except.ok () := hok
                exact absurd h' (by simp)
            · have hac : applyConfig env config =
                  (Except.ok (),
                   (writeFreq env FrequencyType.Max v1).2 ++
                     ((writeFreq env FrequencyType.Min v2).2 ++
                       (writeHwmonFile env "power" "_max"
                         (toString (ratToU64 (cp * 1000000)))).2)) := by
                simp [applyConfig, hmax, hmin, hcap, hr1, hr2, hr3, ctxErr]
              refine ⟨(writeFreq env FrequencyType.Max v1).2,
                (writeFreq env FrequencyType.Min v2).2,
                (writeHwmonFile env "power" "_max"
                  (toString (ratToU64 (cp * 1000000)))).2,
                by simp [hac],
                fun w hw => ⟨v1, rfl,
                  (writeFreq_elem env FrequencyType.Max v1 w hw).1,
                  (writeFreq_elem env FrequencyType.Max v1 w hw).2⟩,
                fun w hw => ⟨v2, rfl,
                  (writeFreq_elem env FrequencyType.Min v2 w hw).1,
                  (writeFreq_elem env FrequencyType.Min v2 w hw).2⟩,
                fun w hw => ⟨cp, rfl,
                  (writeHwmon_elem env "power" "_max" _ w hw).1,
                  (writeHwmon_elem env "power" "_max" _ w hw).2⟩, ?_, ?_⟩
              · intro e he
                rw [hac] at he
                have h' : Except.ok () = Except.error e := he
                exact absurd h' (by simp)
              · exact fun _ => ⟨hmaxok, fun hm => Option.noConfusion hm,
                  fun hm => Option.noConfusion hm,
                  fun hc => Option.noConfusion hc⟩


/-- A string extending a known decomposition `q = p ++ r` keeps `p` as a
strippable prefix. -/
theorem dropPre_isSome_pre (p q t : String) (r : List Char)
    (hr : q.data = p.data ++ r) : (dropPre p (q ++ t)).isSome = true := by
  unfold dropPre
  rw [String.data_append, hr, List.append_assoc,
    (dropPreL_iff p.data (p.data ++ (r ++ t.data)) (r ++ t.data)).mpr rfl]
  rfl

/-- C3: `apply_config` writes only the set knobs with their configured
values, in the order max clock, min clock, power cap; the first failing
write aborts the remaining knobs and the returned error message names the
failing knob (already-issued writes stay in the trace — no rollback); a
config with only `max_core_clock` set that succeeds issues exactly one
write, to the max-clock file, leaving the power cap untouched. -/
theorem c3_apply_config_fail_fast (env : Env) (config : GpuConfig) :
    (∀ w ∈ (applyConfig env config).2,
      (∃ v, config.clocksConfiguration.maxCoreClock = some v ∧
        freqTarget env FrequencyType.Max = some w.1 ∧ w.2 = toString v) ∨
      (∃ v, config.clocksConfiguration.minCoreClock = some v ∧
        freqTarget env FrequencyType.Min = some w.1 ∧ w.2 = toString v) ∨
      (∃ cp, config.powerCap = some cp ∧
        hwmonWriteTarget env "power" "_max" = some w.1 ∧
        w.2 = toString (ratToU64 (cp * 1000000)))) ∧
    (∃ t1 t2 t3, (applyConfig env config).2 = t1 ++ t2 ++ t3 ∧
      (∀ w ∈ t1, freqTarget env FrequencyType.Max = some w.1) ∧
      (∀ w ∈ t2, freqTarget env FrequencyType.Min = some w.1) ∧
      (∀ w ∈ t3, hwmonWriteTarget env "power" "_max" = some w.1)) ∧
    (∀ e, (applyConfig env config).1 = Except.error e →
      ((dropPre "Could not set max clock" e).isSome = true ∨
        (dropPre "Could not set min clock" e).isSome = true ∨
        (dropPre "Could not set power cap" e).isSome = true) ∧
      ((dropPre "Could not set max clock" e).isSome = true →
        ∀ w ∈ (applyConfig env config).2,
          freqTarget env FrequencyType.Max = some w.1) ∧
      ((dropPre "Could not set min clock" e).isSome = true →
        ∀ w ∈ (applyConfig env config).2,
          freqTarget env FrequencyType.Max = some w.1 ∨
            freqTarget env FrequencyType.Min = some w.1)) ∧
    (∀ v, config.clocksConfiguration.maxCoreClock = some v →
      config.clocksConfiguration.minCoreClock = none →
      config.powerCap = none →
      (applyConfig env config).1 = Except.ok () →
      ∃ p, freqTarget env FrequencyType.Max = some p ∧
        (applyConfig env config).2 = [(p, toString v)]) := by
  obtain ⟨t1, t2, t3, htr, h1, h2, h3, herr, hok⟩ := applyConfig_char env config
  refine ⟨?_, ⟨t1, t2, t3, htr, ?_, ?_, ?_⟩, ?_, ?_⟩
  · intro w hw
    rw [htr] at hw
    rcases List.mem_append.mp hw with hw' | hw3
    · rcases List.mem_append.mp hw' with hw1 | hw2
      · exact Or.inl (h1 w hw1)
      · exact Or.inr (Or.inl (h2 w hw2))
    · exact Or.inr (Or.inr (h3 w hw3))
  · intro w hw
    obtain ⟨v, _, hf, _⟩ := h1 w hw
    exact hf
  · intro w hw
    obtain ⟨v, _, hf, _⟩ := h2 w hw
    exact hf
  · intro w hw
    obtain ⟨cp, _, hf, _⟩ := h3 w hw
    exact hf
  · intro e he
    rcases herr e he with ⟨t, het, ht2, ht3⟩ | ⟨t, het, ht3⟩ | ⟨t, het⟩
    · refine ⟨Or.inl ?_, ?_, ?_⟩
      · rw [het]
        exact dropPre_isSome_pre "Could not set max clock"
          "Could not set max clock: " t [':', ' '] (by decide)
      · intro _ w hw
        rw [htr, ht2, ht3] at hw
        simp only [List.append_nil] at hw
        obtain ⟨v, _, hf, _⟩ := h1 w hw
        exact hf
      · intro _ w hw
        rw [htr, ht2, ht3] at hw
        simp only [List.append_nil] at hw
        obtain ⟨v, _, hf, _⟩ := h1 w hw
        exact Or.inl hf
    · refine ⟨Or.inr (Or.inl ?_), ?_, ?_⟩
      · rw [het]
        exact dropPre_isSome_pre "Could not set min clock"
          "Could not set min clock: " t [':', ' '] (by decide)
      · intro hpre
        rw [het, dropPre_of_ctx_ne "Could not set max clock"
          "Could not set min clock: " t (by decide) (by decide)] at hpre
        exact absurd hpre (by simp)
      · intro _ w hw
        rw [htr, ht3] at hw
        simp only [List.append_nil] at hw
        rcases List.mem_append.mp hw with hw1 | hw2
        · obtain ⟨v, _, hf, _⟩ := h1 w hw1
          exact Or.inl hf
        · obtain ⟨v, _, hf, _⟩ := h2 w hw2
          exact Or.inr hf
    · refine ⟨Or.inr (Or.inr ?_), ?_, ?_⟩
      · rw [het]
        exact dropPre_isSome_pre "Could not set power cap"
          "Could not set power cap: " t [':', ' '] (by decide)
      · intro hpre
        rw [het, dropPre_of_ctx_ne "Could not set max clock"
          "Could not set power cap: " t (by decide) (by decide)] at hpre
        exact absurd hpre (by simp)
      · intro hpre
        rw [het, dropPre_of_ctx_ne "Could not set min clock"
          "Could not set power cap: " t (by decide) (by decide)] at hpre
        exact absurd hpre (by simp)
  · intro v hv hmn hcp hok'
    obtain ⟨hx, _, h2n, h3n⟩ := hok hok'
    obtain ⟨p, hp, ht1⟩ := hx v hv
    refine ⟨p, hp, ?_⟩
    rw [htr, ht1, h2n hmn, h3n hcp]
    simp

/-- C3 witness: applying a config with only `max_core_clock = 500` set on an
i915 device whose max-frequency file exists issues exactly the one write
`("/sys/card0/gt_max_freq_mhz", "500")` and succeeds. -/
theorem c3_apply_config_fail_fast_witness :
    (applyConfig envC3 cfgC3).1 = Except.ok () ∧
    (applyConfig envC3 cfgC3).2 = [("/sys/card0/gt_max_freq_mhz", "500")] := by
  have h := (c3_apply_config_fail_fast envC3 cfgC3).2.2.2 500 rfl rfl rfl
    (by rfl)
  obtain ⟨p, hp, htr⟩ := h
  have hpv : some p = some "/sys/card0/gt_max_freq_mhz" := by
    rw [← hp]
    decide
  injection hpv with hpv
  subst hpv
  refine ⟨by rfl, ?_⟩
  rw [htr]
  decide

end LactIntel
